import Mathlib

/-!
Verification development for the SolanaActions repository.

Shallow embedding of the core subsystems:
  * the Action Registry / dispatch engine (`src/solana_actions_core/src/actions.rs`),
  * the transaction composition and signing engine
    (`src/solana_actions_core/src/agent.rs`, `src/solana_actions_core/src/wallet.rs`),
  * the dispatchable operations needed by the verified properties
    (`src/solana_actions_core/src/token_actions.rs`,
     `src/solana_actions_core/src/nft_actions.rs`).

Modelling conventions:
  * Solana public keys, blockhashes and account payloads are opaque to the
    core; they are modelled as natural numbers / lists of naturals.
  * Rust `f64` amounts are modelled as exact rationals; the Rust cast
    `x as u64` (truncation toward zero, saturating) is `f64ToU64`.
  * External SDK helpers that the core calls but does not define
    (associated token address derivation, `Mint::unpack`, `Pubkey::from_str`,
    number formatting) are fields of the `Ext` record; the opaque RPC
    endpoint is the `RpcEnv` record.  Ed25519 signing is idealized: a
    signature is the pair of the signer identity and the signed message
    (message serialization is canonical, hence modelled by the message
    value itself).
  * Effectful steps of a dispatch (signing, submitting) are recorded in an
    explicit `Effect` trace so that properties such as "nothing is signed
    and nothing is submitted" are directly statable.
-/

namespace SolActions

abbrev Pubkey := Nat

abbrev Blockhash := Nat

/-- Rust `as u64` applied to a (nonnegative or negative) `f64` value:
truncation toward zero, saturating at the `u64` range. -/
def f64ToU64 (q : ℚ) : ℕ := min (q.num.toNat / q.den) (2 ^ 64 - 1)

/-- From `solana_sdk::native_token`. -/
def LAMPORTS_PER_SOL : ℕ := 1000000000

/-! ## JSON values (`serde_json::Value`) -/

inductive Json where
  | null : Json
  | bool : Bool → Json
  | num : ℚ → Json
  | str : String → Json
  | arr : List Json → Json
  | obj : List (String × Json) → Json

/-- Field lookup in a JSON object (first binding wins, as in a map). -/
def Json.getField : Json → String → Option Json
  | .obj fields, key => fields.lookup key
  | _, _ => none

def Json.hasKey (j : Json) (key : String) : Bool := (j.getField key).isSome

/-! ## Instructions and messages

The core builds instructions through SDK constructor helpers
(`system_instruction::transfer`,
`spl_associated_token_account::instruction::create_associated_token_account`,
`spl_token::instruction::transfer_checked`, ...).  Each constructor is
modelled symbolically, recording exactly the arguments the source passes. -/

inductive Instruction where
  | systemTransfer (fundingAccount toAccount : Pubkey) (lamports : ℕ)
  | createAssociatedTokenAccount
      (fundingAddress walletAddress tokenMintAddress tokenProgramId : Pubkey)
  | transferChecked
      (tokenProgramId sourcePubkey mintPubkey destinationPubkey authorityPubkey : Pubkey)
      (amount : ℕ) (decimals : ℕ)
deriving DecidableEq

/-- The signing accounts an instruction requires, per the SDK account metas:
the funding account of a system transfer, the funding address of an
associated-token-account creation, and the authority of a checked token
transfer all sign. -/
def Instruction.signers : Instruction → List Pubkey
  | .systemTransfer fundingAccount _ _ => [fundingAccount]
  | .createAssociatedTokenAccount fundingAddress _ _ _ => [fundingAddress]
  | .transferChecked _ _ _ _ authorityPubkey _ _ => [authorityPubkey]

/-- Keep the first occurrence of each element, in order. -/
def dedupFirst : List Pubkey → List Pubkey
  | [] => []
  | a :: rest => a :: (dedupFirst rest).filter (fun x => x ≠ a)

/-- A compiled v0 message (`message::v0::Message::try_compile`): the fee
payer, the ordered instruction list and the stamped recent blockhash. -/
structure VersionedMessage where
  feePayer : Pubkey
  instructions : List Instruction
  recentBlockhash : Blockhash
deriving DecidableEq

/-- The static signer list of a compiled message: the fee payer occupies the
first slot, followed by the remaining required signers. -/
def VersionedMessage.signerKeys (m : VersionedMessage) : List Pubkey :=
  dedupFirst (m.feePayer :: m.instructions.flatMap Instruction.signers)

/-- The signature slot reserved for a given public identity in the compiled
message, if that identity is a required signer. -/
def VersionedMessage.signerSlot (m : VersionedMessage) (pk : Pubkey) : Option ℕ :=
  m.signerKeys.findIdx? (fun x => x == pk)

def VersionedMessage.numRequiredSignatures (m : VersionedMessage) : ℕ :=
  m.signerKeys.length

def tryCompile (payer : Pubkey) (instructions : List Instruction) (bh : Blockhash) :
    VersionedMessage :=
  { feePayer := payer, instructions := instructions, recentBlockhash := bh }

/-- Idealized ed25519 signature: records which identity signed which
serialized message.  A signature is valid for pubkey `p` over message `m`
iff it equals `⟨p, m⟩`. -/
structure Signature where
  signer : Pubkey
  signedMessage : VersionedMessage
deriving DecidableEq

structure VersionedTransaction where
  signatures : List Signature
  message : VersionedMessage
deriving DecidableEq

/-! ## Wallet (`src/solana_actions_core/src/wallet.rs`) -/

structure Keypair where
  pubkey : Pubkey
deriving DecidableEq

/-- `Keypair::sign_message` over the serialized message bytes. -/
def Keypair.signMessage (kp : Keypair) (m : VersionedMessage) : Signature :=
  { signer := kp.pubkey, signedMessage := m }

structure KeypairWallet where
  keypair : Keypair
deriving DecidableEq

def KeypairWallet.pubkey (w : KeypairWallet) : Pubkey := w.keypair.pubkey

/-- `KeypairWallet::sign_transaction`: serialize the message, sign it with
the keypair, and push the signature onto the end of the signature vector. -/
def KeypairWallet.sign_transaction (w : KeypairWallet) (tx : VersionedTransaction) :
    Except String VersionedTransaction :=
  Except.ok { tx with signatures := tx.signatures ++ [w.keypair.signMessage tx.message] }

/-- `KeypairWallet::sign_all_transactions`: the source loops over the vector
and pushes one signature per transaction, never failing. -/
def KeypairWallet.sign_all_transactions (w : KeypairWallet)
    (txs : List VersionedTransaction) : Except String (List VersionedTransaction) :=
  Except.ok (txs.map fun tx =>
    { tx with signatures := tx.signatures ++ [w.keypair.signMessage tx.message] })

/-! ## External collaborators -/

/-- An account fetched over RPC (`solana_sdk::account::Account`), restricted
to the fields the core reads. -/
structure Account where
  owner : Pubkey
  data : List ℕ
deriving DecidableEq

/-- `spl_token::state::Mint`, restricted to the field the core reads. -/
structure MintState where
  decimals : ℕ
deriving DecidableEq

structure UiTokenAmount where
  uiAmount : Option ℚ

structure PerfSample where
  numTransactions : ℕ
  samplePeriodSecs : ℕ
deriving DecidableEq

/-- The opaque RPC endpoint (`solana_client::rpc_client::RpcClient`),
restricted to the verbs the core consumes. -/
structure RpcEnv where
  getBalance : Pubkey → Except String ℕ
  getAccount : Pubkey → Except String Account
  getTokenAccountBalance : Pubkey → Except String UiTokenAmount
  getLatestBlockhash : Except String Blockhash
  sendAndConfirmTransaction : VersionedTransaction → Except String String
  getRecentPerformanceSamples : ℕ → Except String (List PerfSample)

/-- External SDK helpers called by the core but defined outside the
repository. -/
structure Ext where
  getAssociatedTokenAddress : Pubkey → Pubkey → Pubkey
  unpackMint : List ℕ → Except String MintState
  parsePubkey : String → Except String Pubkey
  pubkeyToString : Pubkey → String
  formatTps : ℚ → String

/-! ## Agent (`src/solana_actions_core/src/agent.rs`) -/

/-- `Agent`: the account facade owning the RPC handle and the wallet.  The
repository provides a single `Wallet` implementation, `KeypairWallet`,
which is used here. -/
structure Agent where
  client : RpcEnv
  wallet : KeypairWallet

/-- Observable effects of one dispatched operation, recorded so that
"no transaction is signed / nothing is submitted" is directly statable. -/
inductive Effect where
  | signedTx : VersionedTransaction → Effect
  | submittedTx : VersionedTransaction → Effect
deriving DecidableEq

/-- `Agent::get_balance` (the `TokenActions` impl, agent.rs lines 36-53). -/
def Agent.get_balance (ag : Agent) (ext : Ext) (mint : Option Pubkey) :
    Except String ℚ :=
  let owner := ag.wallet.pubkey
  match mint with
  | none =>
      match ag.client.getBalance owner with
      | .error e => .error e
      | .ok lamports => .ok ((lamports : ℚ) / (LAMPORTS_PER_SOL : ℚ))
  | some mint_pubkey =>
      let ata := ext.getAssociatedTokenAddress owner mint_pubkey
      let balance : ℚ :=
        match ag.client.getTokenAccountBalance ata with
        | .ok ui_token_amount => ui_token_amount.uiAmount.getD 0
        | .error _ => 0
      .ok balance

/-- The instruction-building phase of `Agent::transfer` (agent.rs lines
62-106): the `match mint` block that fills the `instructions` vector,
including the early `Transfer amount is too small` rejections and the
conditional associated-token-account creation. -/
def Agent.buildTransferInstructions (ag : Agent) (ext : Ext) (toAddr : Pubkey)
    (amount : ℚ) (mint : Option Pubkey) : Except String (List Instruction) :=
  let from_pubkey := ag.wallet.pubkey
  match mint with
  | none =>
      let lamports := f64ToU64 (amount * (LAMPORTS_PER_SOL : ℚ))
      if lamports = 0 then .error "Transfer amount is too small"
      else .ok [Instruction.systemTransfer from_pubkey toAddr lamports]
  | some mint_pubkey =>
      match ag.client.getAccount mint_pubkey with
      | .error e => .error e
      | .ok mint_info =>
          let token_program_id := mint_info.owner
          match ext.unpackMint mint_info.data with
          | .error e => .error e
          | .ok token_mint_account =>
              let decimals := token_mint_account.decimals
              let amount_in_base_units := f64ToU64 (amount * (10 : ℚ) ^ decimals)
              if amount_in_base_units = 0 then .error "Transfer amount is too small"
              else
                let source_ata := ext.getAssociatedTokenAddress from_pubkey mint_pubkey
                let dest_ata := ext.getAssociatedTokenAddress toAddr mint_pubkey
                let createIxs : List Instruction :=
                  match ag.client.getAccount dest_ata with
                  | .ok _ => []
                  | .error _ =>
                      [Instruction.createAssociatedTokenAccount
                        from_pubkey toAddr mint_pubkey token_program_id]
                .ok (createIxs ++
                  [Instruction.transferChecked token_program_id source_ata mint_pubkey
                    dest_ata from_pubkey amount_in_base_units decimals])

/-- `Agent::transfer` (agent.rs lines 55-129): build the instructions,
fetch the latest blockhash, compile a v0 message with the wallet as fee
payer, sign the draft (which starts with an empty signature vector), and
send-and-confirm, returning the confirmed signature string. -/
def Agent.transfer (ag : Agent) (ext : Ext) (toAddr : Pubkey) (amount : ℚ)
    (mint : Option Pubkey) : Except String String × List Effect :=
  match ag.buildTransferInstructions ext toAddr amount mint with
  | .error e => (.error e, [])
  | .ok instructions =>
      match ag.client.getLatestBlockhash with
      | .error e => (.error e, [])
      | .ok latest_blockhash =>
          let message := tryCompile ag.wallet.pubkey instructions latest_blockhash
          let tx : VersionedTransaction := { signatures := [], message := message }
          match ag.wallet.sign_transaction tx with
          | .error e => (.error e, [])
          | .ok signed_tx =>
              match ag.client.sendAndConfirmTransaction signed_tx with
              | .error e =>
                  (.error e, [Effect.signedTx signed_tx, Effect.submittedTx signed_tx])
              | .ok signature =>
                  (.ok signature,
                   [Effect.signedTx signed_tx, Effect.submittedTx signed_tx])

/-! ## Actions and the registry (`src/solana_actions_core/src/actions.rs`) -/

structure ActionExample where
  input : Json
  output : Json
  explanation : String

structure ActionMetadata where
  name : String
  similes : List String
  description : String
  examples : List ActionExample
  input_schema : Json

/-- A registered operation: its immutable descriptor plus its `call`
behaviour (JSON in, JSON out, with an effect trace). -/
structure Action where
  metadata : ActionMetadata
  call : Agent → Ext → Json → Except String Json × List Effect

/-- `HashMap<String, Arc<dyn Action>>`, modelled as an association list in
which `insert` replaces the binding of an existing key. -/
def insertAction : List (String × Action) → String → Action → List (String × Action)
  | [], name, a => [(name, a)]
  | (k, v) :: rest, name, a =>
      if k = name then (name, a) :: rest else (k, v) :: insertAction rest name a

structure ActionRegistry where
  actions : List (String × Action)

def ActionRegistry.new : ActionRegistry := { actions := [] }

/-- `ActionRegistry::register`: insert under `action.metadata().name`. -/
def ActionRegistry.register (r : ActionRegistry) (a : Action) : ActionRegistry :=
  { actions := insertAction r.actions a.metadata.name a }

def ActionRegistry.registerAll (r : ActionRegistry) (as' : List Action) : ActionRegistry :=
  as'.foldl ActionRegistry.register r

/-- `ActionRegistry::get`. -/
def ActionRegistry.get (r : ActionRegistry) (name : String) : Option Action :=
  r.actions.lookup name

/-- `ActionRegistry::execute`: dispatch by name, failing with
`Unknown action: {name}` when the lookup misses. -/
def ActionRegistry.execute (r : ActionRegistry) (name : String) (ag : Agent)
    (ext : Ext) (input : Json) : Except String Json × List Effect :=
  match r.get name with
  | none => (.error ("Unknown action: " ++ name), [])
  | some a => a.call ag ext input

/-- `ActionRegistry::metadata`: descriptors of all registered actions. -/
def ActionRegistry.metadata (r : ActionRegistry) : List ActionMetadata :=
  r.actions.map fun p => p.2.metadata

/-! ## The TRANSFER action (`token_actions.rs` lines 253-342) -/

/-- `serde_json::from_value` into TransferAction's `Input` struct
(`to: String`, `amount: f64`, `#[serde(default)] mint: Option<String>`):
the value must be an object, `to` a string, `amount` a number; `mint` may
be absent or null (both `None`) or a string; unknown fields are ignored. -/
def parseTransferInput (input : Json) : Except String (String × ℚ × Option String) :=
  match input with
  | .obj _ =>
      match input.getField "to" with
      | some (.str toStr) =>
          match input.getField "amount" with
          | some (.num amount) =>
              match input.getField "mint" with
              | none => .ok (toStr, amount, none)
              | some .null => .ok (toStr, amount, none)
              | some (.str mintStr) => .ok (toStr, amount, some mintStr)
              | some _ => .error "invalid type: expected a string for field mint"
          | _ => .error "missing or invalid field amount"
      | _ => .error "missing or invalid field to"
  | _ => .error "invalid type: expected an object"

def transferActionMetadata : ActionMetadata :=
  { name := "TRANSFER"
    similes := ["send sol", "send tokens", "transfer to another wallet"]
    description :=
      "Transfer SOL or SPL tokens from the agent\x27s wallet to another address"
    examples :=
      [ { input := Json.obj
            [ ("to", Json.str "ExampleDestination1111111111111111111111111111"),
              ("amount", Json.num ((1 : ℚ)/10)) ]
          output := Json.obj [("signature", Json.str "example_signature")]
          explanation := "Transfer 0.1 SOL to the given address" },
        { input := Json.obj
            [ ("to", Json.str "ExampleDestination1111111111111111111111111111"),
              ("amount", Json.num 5),
              ("mint", Json.str "So11111111111111111111111111111111111111112") ]
          output := Json.obj [("signature", Json.str "example_token_signature")]
          explanation := "Transfer 5 units of the given SPL token" } ]
    input_schema := Json.obj
      [ ("type", Json.str "object"),
        ("properties", Json.obj
          [ ("to", Json.obj
              [ ("type", Json.str "string"),
                ("description", Json.str "Destination Solana address") ]),
            ("amount", Json.obj
              [ ("type", Json.str "number"),
                ("description", Json.str "Amount of SOL or tokens to transfer") ]),
            ("mint", Json.obj
              [ ("type", Json.arr [Json.str "string", Json.str "null"]),
                ("description",
                 Json.str "SPL token mint address; null or omitted for native SOL") ]) ]),
        ("required", Json.arr [Json.str "to", Json.str "amount"]),
        ("additionalProperties", Json.bool false) ] }

/-- `TransferAction::call`: parse the input, parse the pubkeys, run
`agent.transfer`, and wrap the confirmed signature as
`{"signature": ...}` (no `status` field). -/
def transferAction : Action :=
  { metadata := transferActionMetadata
    call := fun agent ext input =>
      match parseTransferInput input with
      | .error e => (.error e, [])
      | .ok (toStr, amount, mintStr) =>
          match ext.parsePubkey toStr with
          | .error e => (.error e, [])
          | .ok to_pubkey =>
              let mintParse : Except String (Option Pubkey) :=
                match mintStr with
                | some ms =>
                    match ext.parsePubkey ms with
                    | .error e => .error e
                    | .ok mp => .ok (some mp)
                | none => .ok none
              match mintParse with
              | .error e => (.error e, [])
              | .ok mint_pubkey =>
                  match agent.transfer ext to_pubkey amount mint_pubkey with
                  | (.error e, effs) => (.error e, effs)
                  | (.ok signature, effs) =>
                      (.ok (Json.obj [("signature", Json.str signature)]), effs) }

/-! ## The WALLET_ADDRESS action (`token_actions.rs` lines 348-402) -/

def walletAddressActionMetadata : ActionMetadata :=
  { name := "WALLET_ADDRESS"
    similes :=
      [ "get wallet address", "show wallet address", "display wallet address",
        "my wallet address" ]
    description := "Get your wallet address."
    examples :=
      [ { input := Json.obj []
          output := Json.obj
            [ ("status", Json.str "success"),
              ("message", Json.str "Wallet address retrieved successfully"),
              ("address", Json.str "8x2dR8Mpzuz2YqyZyZjUbYWKSWesBo5jMx2Q9Y86udVk") ]
          explanation := "Get your wallet address" } ]
    input_schema := Json.obj
      [ ("type", Json.str "object"),
        ("properties", Json.obj []),
        ("additionalProperties", Json.bool false) ] }

/-- `WalletAddressAction::call`. -/
def walletAddressAction : Action :=
  { metadata := walletAddressActionMetadata
    call := fun agent ext _input =>
      (.ok (Json.obj
        [ ("status", Json.str "success"),
          ("message", Json.str "Wallet address retrieved successfully"),
          ("address", Json.str (ext.pubkeyToString agent.wallet.pubkey)) ]), []) }

/-! ## The GET_TPS action (`token_actions.rs` lines 408-478) -/

def getTpsActionMetadata : ActionMetadata :=
  { name := "GET_TPS"
    similes :=
      [ "get transactions per second", "check network speed", "network performance",
        "transaction throughput", "network tps" ]
    description :=
      "Get the current transactions per second (TPS) of the Solana network"
    examples :=
      [ { input := Json.obj []
          output := Json.obj
            [ ("status", Json.str "success"),
              ("tps", Json.num 3500),
              ("message", Json.str "Current network TPS: 3500") ]
          explanation := "Get the current TPS of the Solana network" } ]
    input_schema := Json.obj
      [ ("type", Json.str "object"),
        ("properties", Json.obj []),
        ("additionalProperties", Json.bool false) ] }

/-- `GetTpsAction::call`: fetch one performance sample; report an
error-status envelope if none is available; guard the division on
`sample_period_secs > 0`, reporting `0` otherwise. -/
def getTpsAction : Action :=
  { metadata := getTpsActionMetadata
    call := fun agent ext _input =>
      match agent.client.getRecentPerformanceSamples 1 with
      | .error e => (.error e, [])
      | .ok perf_samples =>
          match perf_samples with
          | [] =>
              (.ok (Json.obj
                [ ("status", Json.str "error"),
                  ("message", Json.str "No performance samples available") ]), [])
          | sample :: _ =>
              let tps : ℚ :=
                if 0 < sample.samplePeriodSecs then
                  (sample.numTransactions : ℚ) / (sample.samplePeriodSecs : ℚ)
                else 0
              (.ok (Json.obj
                [ ("status", Json.str "success"),
                  ("tps", Json.num tps),
                  ("message",
                   Json.str ("Current network TPS: " ++ ext.formatTps tps)) ]), []) }

/-! ## Deploy-collection signature assembly (`nft_actions.rs` lines 1057-1075)

`DeployCollectionAction::call` builds a draft with an empty signature
vector, signs the serialized message with the one-time mint keypair, has
the wallet sign the draft, and then writes the mint signature at index 1
(or pushes it when fewer than two signatures are present). -/

def deployCollectionFinalize (wallet : KeypairWallet) (mint_keypair : Keypair)
    (tx : VersionedTransaction) : Except String VersionedTransaction :=
  let mint_sig := mint_keypair.signMessage tx.message
  match wallet.sign_transaction tx with
  | .error e => .error e
  | .ok signed_tx =>
      if 2 ≤ signed_tx.signatures.length then
        .ok { signed_tx with signatures := signed_tx.signatures.set 1 mint_sig }
      else
        .ok { signed_tx with signatures := signed_tx.signatures ++ [mint_sig] }

/-! ## Concrete fixtures used by witnesses and counterexamples -/

def demoKeypair : Keypair := { pubkey := 1 }

def demoWallet : KeypairWallet := { keypair := demoKeypair }

/-- A concrete RPC environment: the mint account `3` exists (token program
`7`, packed data decoding to 6 decimals), every other account is missing,
the blockhash is `11`, and submission confirms with signature `sig123`. -/
def demoEnv : RpcEnv :=
  { getBalance := fun _ => .ok 2000000000
    getAccount := fun pk =>
      if pk = 3 then .ok { owner := 7, data := [6] } else .error "AccountNotFound"
    getTokenAccountBalance := fun _ => .error "could not find account"
    getLatestBlockhash := .ok 11
    sendAndConfirmTransaction := fun _ => .ok "sig123"
    getRecentPerformanceSamples := fun _ =>
      .ok [{ numTransactions := 5000, samplePeriodSecs := 0 }] }

/-- Like `demoEnv` but the network returns no performance samples. -/
def demoEnvNoSamples : RpcEnv :=
  { demoEnv with getRecentPerformanceSamples := fun _ => .ok [] }

/-- Like `demoEnv` but the destination associated token account `123`
already exists on chain. -/
def demoEnvAtaExists : RpcEnv :=
  { demoEnv with
    getAccount := fun pk =>
      if pk = 3 then .ok { owner := 7, data := [6] }
      else if pk = 123 then .ok { owner := 7, data := [] }
      else .error "AccountNotFound" }

def demoExt : Ext :=
  { getAssociatedTokenAddress := fun owner mint => 100 + 10 * owner + mint
    unpackMint := fun dataBytes =>
      match dataBytes with
      | [d] => .ok { decimals := d }
      | _ => .error "InvalidAccountData"
    parsePubkey := fun s => if s = "Dest111" then .ok 2 else .error "Invalid pubkey"
    pubkeyToString := fun pk => toString pk
    formatTps := fun _ => "0" }

def demoAgent : Agent := { client := demoEnv, wallet := demoWallet }

def demoAgentNoSamples : Agent := { client := demoEnvNoSamples, wallet := demoWallet }

def demoAgentAtaExists : Agent := { client := demoEnvAtaExists, wallet := demoWallet }

/-- The registry holding the modelled actions, registered the way
`register_token_actions` registers them. -/
def demoRegistry : ActionRegistry :=
  ((ActionRegistry.new.register transferAction).register
      walletAddressAction).register getTpsAction

def demoTransferInput : Json :=
  Json.obj [("to", Json.str "Dest111"), ("amount", Json.num ((1 : ℚ)/10))]

/-- A wallet whose identity (pubkey 5) is a required signer but not the fee
payer of the draft below. -/
def cexWallet : KeypairWallet := { keypair := { pubkey := 5 } }

/-- A compiled message whose fee payer is pubkey 0 and whose checked token
transfer requires authority pubkey 5 to sign: the signer slots are
`[0, 5]`. -/
def cexMessage : VersionedMessage :=
  { feePayer := 0
    instructions := [Instruction.transferChecked 9 11 12 13 5 100 6]
    recentBlockhash := 3 }

def cexDraft : VersionedTransaction := { signatures := [], message := cexMessage }

/-- The one-time mint keypair of a deploy-collection flow. -/
def cexMintKeypair : Keypair := { pubkey := 2 }

/-- A deploy-style compiled message: fee payer is the demo wallet (pubkey 1)
and the mint keypair (pubkey 2) must co-sign; signer slots `[1, 2]`. -/
def cexDeployMessage : VersionedMessage :=
  { feePayer := 1
    instructions := [Instruction.transferChecked 9 11 12 13 2 100 6]
    recentBlockhash := 3 }

def cexDeployDraft : VersionedTransaction :=
  { signatures := [], message := cexDeployMessage }

/-! ## Evaluation lemmas for the `f64` scaling -/

theorem f64ToU64_natCast (n : ℕ) (h : n < 2 ^ 64) : f64ToU64 (n : ℚ) = n := by
  unfold f64ToU64
  rw [Rat.num_natCast, Rat.den_natCast]
  simp [Int.toNat_natCast]
  omega

theorem f64ToU64_eq_zero (q : ℚ) (h : q < 1) : f64ToU64 q = 0 := by
  unfold f64ToU64
  rcases le_or_lt q 0 with h0 | h0
  · have hnum : q.num ≤ 0 := Rat.num_nonpos.mpr h0
    simp [Int.toNat_of_nonpos hnum]
  · have hden : (0 : ℚ) < (q.den : ℚ) := by exact_mod_cast q.den_pos
    have hq : (q.num : ℚ) < (q.den : ℚ) := by
      have hd : (q.num : ℚ) / (q.den : ℚ) < 1 := by rw [Rat.num_div_den q]; exact h
      exact (div_lt_one hden).mp hd
    have hlt : q.num < (q.den : ℤ) := by exact_mod_cast hq
    have hdp : 0 < q.den := q.den_pos
    have hlt' : q.num.toNat < q.den := by omega
    simp [Nat.div_eq_of_lt hlt']

theorem demo_lamports_01 :
    f64ToU64 ((1 : ℚ)/10 * (LAMPORTS_PER_SOL : ℚ)) = 100000000 := by
  have h : ((1 : ℚ)/10 * (LAMPORTS_PER_SOL : ℚ)) = ((100000000 : ℕ) : ℚ) := by
    norm_num [LAMPORTS_PER_SOL]
  rw [h, f64ToU64_natCast] ; norm_num

theorem demo_lamports_tiny :
    f64ToU64 ((1 : ℚ)/10000000000 * (LAMPORTS_PER_SOL : ℚ)) = 0 := by
  apply f64ToU64_eq_zero
  norm_num [LAMPORTS_PER_SOL]

theorem demo_base_units_5_6dec : f64ToU64 ((5 : ℚ) * (10 : ℚ) ^ (6 : ℕ)) = 5000000 := by
  have h : ((5 : ℚ) * (10 : ℚ) ^ (6 : ℕ)) = ((5000000 : ℕ) : ℚ) := by norm_num
  rw [h, f64ToU64_natCast] ; norm_num

theorem demo_base_units_tiny_6dec :
    f64ToU64 ((1 : ℚ)/10000000000 * (10 : ℚ) ^ (6 : ℕ)) = 0 := by
  apply f64ToU64_eq_zero
  norm_num

/-! ## Behaviour lemmas for the transfer pipeline -/

theorem build_sol_ok (ag : Agent) (ext : Ext) (toAddr : Pubkey) (amount : ℚ)
    (h : f64ToU64 (amount * (LAMPORTS_PER_SOL : ℚ)) ≠ 0) :
    ag.buildTransferInstructions ext toAddr amount none =
      .ok [Instruction.systemTransfer ag.wallet.pubkey toAddr
            (f64ToU64 (amount * (LAMPORTS_PER_SOL : ℚ)))] := by
  unfold Agent.buildTransferInstructions
  simp [h]

theorem build_sol_zero (ag : Agent) (ext : Ext) (toAddr : Pubkey) (amount : ℚ)
    (h : f64ToU64 (amount * (LAMPORTS_PER_SOL : ℚ)) = 0) :
    ag.buildTransferInstructions ext toAddr amount none =
      .error "Transfer amount is too small" := by
  unfold Agent.buildTransferInstructions
  simp [h]

theorem build_spl_zero (ag : Agent) (ext : Ext) (toAddr : Pubkey) (amount : ℚ)
    (mint_pubkey : Pubkey) (mintAcct : Account) (ms : MintState)
    (hMint : ag.client.getAccount mint_pubkey = .ok mintAcct)
    (hUnpack : ext.unpackMint mintAcct.data = .ok ms)
    (h : f64ToU64 (amount * (10 : ℚ) ^ ms.decimals) = 0) :
    ag.buildTransferInstructions ext toAddr amount (some mint_pubkey) =
      .error "Transfer amount is too small" := by
  unfold Agent.buildTransferInstructions
  simp [hMint, hUnpack, h]

theorem build_spl_ata_exists (ag : Agent) (ext : Ext) (toAddr : Pubkey) (amount : ℚ)
    (mint_pubkey : Pubkey) (mintAcct destAcct : Account) (ms : MintState)
    (hMint : ag.client.getAccount mint_pubkey = .ok mintAcct)
    (hUnpack : ext.unpackMint mintAcct.data = .ok ms)
    (h : f64ToU64 (amount * (10 : ℚ) ^ ms.decimals) ≠ 0)
    (hDest : ag.client.getAccount (ext.getAssociatedTokenAddress toAddr mint_pubkey) =
      .ok destAcct) :
    ag.buildTransferInstructions ext toAddr amount (some mint_pubkey) =
      .ok [Instruction.transferChecked mintAcct.owner
            (ext.getAssociatedTokenAddress ag.wallet.pubkey mint_pubkey) mint_pubkey
            (ext.getAssociatedTokenAddress toAddr mint_pubkey) ag.wallet.pubkey
            (f64ToU64 (amount * (10 : ℚ) ^ ms.decimals)) ms.decimals] := by
  unfold Agent.buildTransferInstructions
  simp [hMint, hUnpack, hDest, h]

theorem build_spl_ata_missing (ag : Agent) (ext : Ext) (toAddr : Pubkey) (amount : ℚ)
    (mint_pubkey : Pubkey) (mintAcct : Account) (ms : MintState) (e : String)
    (hMint : ag.client.getAccount mint_pubkey = .ok mintAcct)
    (hUnpack : ext.unpackMint mintAcct.data = .ok ms)
    (h : f64ToU64 (amount * (10 : ℚ) ^ ms.decimals) ≠ 0)
    (hDest : ag.client.getAccount (ext.getAssociatedTokenAddress toAddr mint_pubkey) =
      .error e) :
    ag.buildTransferInstructions ext toAddr amount (some mint_pubkey) =
      .ok [Instruction.createAssociatedTokenAccount ag.wallet.pubkey toAddr mint_pubkey
            mintAcct.owner,
           Instruction.transferChecked mintAcct.owner
            (ext.getAssociatedTokenAddress ag.wallet.pubkey mint_pubkey) mint_pubkey
            (ext.getAssociatedTokenAddress toAddr mint_pubkey) ag.wallet.pubkey
            (f64ToU64 (amount * (10 : ℚ) ^ ms.decimals)) ms.decimals] := by
  unfold Agent.buildTransferInstructions
  simp [hMint, hUnpack, hDest, h]

theorem transfer_of_build_error (ag : Agent) (ext : Ext) (toAddr : Pubkey) (amount : ℚ)
    (mint : Option Pubkey) (e : String)
    (h : ag.buildTransferInstructions ext toAddr amount mint = .error e) :
    ag.transfer ext toAddr amount mint = (.error e, []) := by
  unfold Agent.transfer
  rw [h]

/-- The draft compiled and signed by a successful SOL or SPL transfer: the
message compiled from the built instruction list with the wallet as fee
payer, carrying exactly the wallet keypair signature. -/
def signedTransferTx (ag : Agent) (instructions : List Instruction)
    (bh : Blockhash) : VersionedTransaction :=
  { signatures :=
      [ag.wallet.keypair.signMessage (tryCompile ag.wallet.pubkey instructions bh)]
    message := tryCompile ag.wallet.pubkey instructions bh }

theorem transfer_of_build_ok (ag : Agent) (ext : Ext) (toAddr : Pubkey) (amount : ℚ)
    (mint : Option Pubkey) (instructions : List Instruction) (bh : Blockhash) (s : String)
    (hbuild : ag.buildTransferInstructions ext toAddr amount mint = .ok instructions)
    (hbh : ag.client.getLatestBlockhash = .ok bh)
    (hsend : ag.client.sendAndConfirmTransaction (signedTransferTx ag instructions bh) =
      .ok s) :
    ag.transfer ext toAddr amount mint =
      (.ok s,
       [Effect.signedTx (signedTransferTx ag instructions bh),
        Effect.submittedTx (signedTransferTx ag instructions bh)]) := by
  unfold Agent.transfer
  rw [hbuild, hbh]
  simp only [KeypairWallet.sign_transaction]
  have htx : ({ signatures := [],
                message := tryCompile ag.wallet.pubkey instructions bh
              } : VersionedTransaction).signatures ++
      [ag.wallet.keypair.signMessage
        ({ signatures := [],
           message := tryCompile ag.wallet.pubkey instructions bh
         } : VersionedTransaction).message] =
      (signedTransferTx ag instructions bh).signatures := by
    simp [signedTransferTx]
  simp only [signedTransferTx] at hsend ⊢
  simp only [List.nil_append]
  rw [hsend]

/-! ## Concrete evaluation of the demo TRANSFER dispatch -/

theorem demo_build_sol :
    demoAgent.buildTransferInstructions demoExt 2 ((1 : ℚ)/10) none =
      .ok [Instruction.systemTransfer 1 2 100000000] := by
  have h := build_sol_ok demoAgent demoExt 2 ((1 : ℚ)/10)
    (by rw [demo_lamports_01]; norm_num)
  rw [demo_lamports_01] at h
  exact h

def demoTransferIxs : List Instruction := [Instruction.systemTransfer 1 2 100000000]

/-- The draft signed and submitted by the demo TRANSFER dispatch. -/
def demoSignedTransferTx : VersionedTransaction :=
  signedTransferTx demoAgent demoTransferIxs 11

theorem demo_transfer_run :
    demoAgent.transfer demoExt 2 ((1 : ℚ)/10) none =
      (.ok "sig123",
       [Effect.signedTx demoSignedTransferTx, Effect.submittedTx demoSignedTransferTx]) :=
  transfer_of_build_ok demoAgent demoExt 2 ((1 : ℚ)/10) none demoTransferIxs 11 "sig123"
    demo_build_sol rfl rfl

theorem demo_transferAction_call :
    transferAction.call demoAgent demoExt demoTransferInput =
      (.ok (Json.obj [("signature", Json.str "sig123")]),
       [Effect.signedTx demoSignedTransferTx, Effect.submittedTx demoSignedTransferTx]) := by
  have hparse : parseTransferInput demoTransferInput = .ok ("Dest111", (1 : ℚ)/10, none) :=
    rfl
  have hto : demoExt.parsePubkey "Dest111" = .ok 2 := rfl
  simp only [transferAction, hparse, hto, demo_transfer_run]

/-! ## Registry lemmas -/

theorem lookup_insertAction (l : List (String × Action)) (k : String) (a : Action)
    (n : String) :
    List.lookup n (insertAction l k a) = if k = n then some a else List.lookup n l := by
  induction l with
  | nil =>
      simp only [insertAction]
      by_cases h : k = n
      · subst h
        simp [List.lookup]
      · have h' : (n == k) = false := beq_eq_false_iff_ne.mpr (Ne.symm h)
        simp [List.lookup, h, h']
  | cons p rest ih =>
      obtain ⟨pk, pa⟩ := p
      simp only [insertAction]
      by_cases hpk : pk = k
      · subst hpk
        simp only [if_pos rfl]
        by_cases h : pk = n
        · subst h
          simp [List.lookup]
        · have h' : (n == pk) = false := beq_eq_false_iff_ne.mpr (Ne.symm h)
          simp [List.lookup, h, h']
      · simp only [if_neg hpk]
        by_cases hn : n = pk
        · subst hn
          have hkn : ¬ k = n := fun hh => hpk hh.symm
          simp [List.lookup, hkn]
        · have hn' : (n == pk) = false := beq_eq_false_iff_ne.mpr hn
          simp [List.lookup, hn', ih]

theorem get_register (r : ActionRegistry) (a : Action) (n : String) :
    (r.register a).get n = if a.metadata.name = n then some a else r.get n := by
  simp [ActionRegistry.register, ActionRegistry.get, lookup_insertAction]

theorem find?_append_option {α : Type} (l₁ l₂ : List α) (p : α → Bool) :
    (l₁ ++ l₂).find? p =
      match l₁.find? p with
      | some x => some x
      | none => l₂.find? p := by
  induction l₁ with
  | nil => simp
  | cons x xs ih =>
      by_cases h : p x
      · simp [List.find?_cons, h]
      · simp only [List.cons_append, List.find?_cons, h]
        simp only [Bool.false_eq_true, if_false] at *
        exact ih

theorem get_registerAll (as' : List Action) (r : ActionRegistry) (n : String) :
    (r.registerAll as').get n =
      match as'.reverse.find? (fun a => a.metadata.name == n) with
      | some a => some a
      | none => r.get n := by
  induction as' generalizing r with
  | nil => simp [ActionRegistry.registerAll]
  | cons a rest ih =>
      have hstep : (r.registerAll (a :: rest)) = ((r.register a).registerAll rest) := rfl
      rw [hstep, ih, List.reverse_cons, find?_append_option]
      rcases hfind : rest.reverse.find? (fun x => x.metadata.name == n) with _ | b
      · rw [hfind, get_register]
        by_cases h : a.metadata.name = n
        · simp [List.find?, h]
        · have h' : (a.metadata.name == n) = false := beq_eq_false_iff_ne.mpr h
          simp [List.find?, h, h']
      · rw [hfind]

theorem mem_of_mem_insertAction (l : List (String × Action)) (k : String) (a : Action)
    (p : String × Action) : p ∈ insertAction l k a → p = (k, a) ∨ p ∈ l := by
  induction l with
  | nil =>
      intro hp
      simp only [insertAction, List.mem_singleton] at hp
      exact Or.inl hp
  | cons q rest ih =>
      obtain ⟨qk, qv⟩ := q
      intro hp
      simp only [insertAction] at hp
      by_cases h : qk = k
      · rw [if_pos h] at hp
        rcases List.mem_cons.mp hp with hh | hh
        · exact Or.inl hh
        · exact Or.inr (List.mem_cons_of_mem _ hh)
      · rw [if_neg h] at hp
        rcases List.mem_cons.mp hp with hh | hh
        · exact Or.inr (List.mem_cons.mpr (Or.inl hh))
        · rcases ih hh with hq | hq
          · exact Or.inl hq
          · exact Or.inr (List.mem_cons_of_mem _ hq)

theorem mem_keys_insertAction (l : List (String × Action)) (k : String) (a : Action)
    (n : String) :
    n ∈ (insertAction l k a).map Prod.fst ↔ n ∈ l.map Prod.fst ∨ n = k := by
  induction l with
  | nil => simp [insertAction]
  | cons q rest ih =>
      obtain ⟨qk, qv⟩ := q
      by_cases h : qk = k
      · subst h
        simp [insertAction]
        tauto
      · simp [insertAction, h, ih]
        tauto

theorem nodup_keys_insertAction (l : List (String × Action)) (k : String) (a : Action) :
    (l.map Prod.fst).Nodup → ((insertAction l k a).map Prod.fst).Nodup := by
  induction l with
  | nil =>
      intro _h
      simp [insertAction]
  | cons q rest ih =>
      obtain ⟨qk, qv⟩ := q
      intro h
      simp only [List.map_cons, List.nodup_cons] at h
      simp only [insertAction]
      by_cases hq : qk = k
      · rw [if_pos hq]
        simp only [List.map_cons, List.nodup_cons]
        refine ⟨fun hmem => h.1 (hq ▸ hmem), h.2⟩
      · rw [if_neg hq]
        simp only [List.map_cons, List.nodup_cons]
        refine ⟨fun hmem => ?_, ih h.2⟩
        rcases (mem_keys_insertAction rest k a qk).mp hmem with hm | hm
        · exact h.1 hm
        · exact hq hm

/-- The invariant of registries built through `register`: keys are distinct
and each binding's key is its action's descriptor name. -/
def ActionRegistry.Wf (r : ActionRegistry) : Prop :=
  (r.actions.map Prod.fst).Nodup ∧ ∀ p ∈ r.actions, p.1 = p.2.metadata.name

theorem wf_new : ActionRegistry.new.Wf := by
  constructor
  · simp [ActionRegistry.new]
  · intro p hp
    simp [ActionRegistry.new] at hp

theorem wf_register (r : ActionRegistry) (a : Action) (h : r.Wf) :
    (r.register a).Wf := by
  constructor
  · exact nodup_keys_insertAction r.actions a.metadata.name a h.1
  · intro p hp
    rcases mem_of_mem_insertAction r.actions a.metadata.name a p hp with hq | hq
    · subst hq
      rfl
    · exact h.2 p hq

theorem wf_registerAll (as' : List Action) (r : ActionRegistry) (h : r.Wf) :
    (r.registerAll as').Wf := by
  induction as' generalizing r with
  | nil => exact h
  | cons a rest ih => exact ih (r.register a) (wf_register r a h)

theorem lookup_eq_some_of_mem_nodup (l : List (String × Action))
    (hn : (l.map Prod.fst).Nodup) (p : String × Action) (hp : p ∈ l) :
    List.lookup p.1 l = some p.2 := by
  induction l with
  | nil => cases hp
  | cons q rest ih =>
      obtain ⟨qk, qv⟩ := q
      simp only [List.map_cons, List.nodup_cons] at hn
      rcases List.mem_cons.mp hp with hq | hq
      · rw [hq]
        simp [List.lookup]
      · have hne : p.1 ≠ qk := by
          intro he
          exact hn.1 (he ▸ List.mem_map_of_mem Prod.fst hq)
        have hne' : (p.1 == qk) = false := beq_eq_false_iff_ne.mpr hne
        simp [List.lookup, hne', ih hn.2 hq]

/-! ## Batch-signing lemma -/

theorem sign_all_eq_mapM (w : KeypairWallet) (txs : List VersionedTransaction) :
    w.sign_all_transactions txs = txs.mapM w.sign_transaction := by
  induction txs with
  | nil => rfl
  | cons tx rest ih =>
      rw [List.mapM_cons]
      simp only [KeypairWallet.sign_all_transactions, KeypairWallet.sign_transaction,
        List.map_cons] at ih ⊢
      rw [← ih]
      rfl

/-! ## Claims -/

/-- C1, counterexample: dispatching the registered `TRANSFER` operation with
a schema-valid input on a concrete environment succeeds, yet the returned
JSON object is `{"signature": "sig123"}` and carries no `status`
discriminator field, refuting the claim that every successful dispatch
returns an object containing `status`. -/
theorem transfer_dispatch_output_lacks_status :
    (demoRegistry.execute "TRANSFER" demoAgent demoExt demoTransferInput).1 =
      Except.ok (Json.obj [("signature", Json.str "sig123")]) ∧
    Json.hasKey (Json.obj [("signature", Json.str "sig123")]) "status" = false := by
  constructor
  · have hget : demoRegistry.get "TRANSFER" = some transferAction := rfl
    simp only [ActionRegistry.execute, hget, demo_transferAction_call]
  · rfl

/-- C1, amended: a successful dispatch returns a JSON object, but not every
operation includes a `status` discriminator: `TRANSFER` returns exactly
`{"signature": <tx id>}` with no `status` key whenever it succeeds, while
operations such as `WALLET_ADDRESS` do return `status: "success"`. -/
theorem dispatch_status_field_not_universal (ag : Agent) (ext : Ext)
    (input out : Json) (effs : List Effect)
    (h : transferAction.call ag ext input = (.ok out, effs)) :
    (∃ s, out = Json.obj [("signature", Json.str s)]) ∧
    out.hasKey "status" = false ∧
    (∀ input2 : Json, (walletAddressAction.call ag ext input2).1 =
      .ok (Json.obj
        [ ("status", Json.str "success"),
          ("message", Json.str "Wallet address retrieved successfully"),
          ("address", Json.str (ext.pubkeyToString ag.wallet.pubkey)) ])) := by
  have hmain : ∃ s, out = Json.obj [("signature", Json.str s)] := by
    simp only [transferAction] at h
    split at h
    · simp at h
    · split at h
      · simp at h
      · split at h
        · simp at h
        · split at h
          · simp at h
          · rw [Prod.mk.injEq] at h
            obtain ⟨h1, _h2⟩ := h
            rw [Except.ok.injEq] at h1
            exact ⟨_, h1.symm⟩
  refine ⟨hmain, ?_, ?_⟩
  · obtain ⟨s, hs⟩ := hmain
    rw [hs]
    rfl
  · intro input2
    rfl

/-- C1, witness for the amended theorem, instantiated at the demo dispatch. -/
theorem dispatch_status_field_not_universal_witness :
    (∃ s, Json.obj [("signature", Json.str "sig123")] =
      Json.obj [("signature", Json.str s)]) ∧
    Json.hasKey (Json.obj [("signature", Json.str "sig123")]) "status" = false ∧
    (∀ input2 : Json, (walletAddressAction.call demoAgent demoExt input2).1 =
      .ok (Json.obj
        [ ("status", Json.str "success"),
          ("message", Json.str "Wallet address retrieved successfully"),
          ("address", Json.str (demoExt.pubkeyToString demoAgent.wallet.pubkey)) ])) :=
  dispatch_status_field_not_universal demoAgent demoExt demoTransferInput
    (Json.obj [("signature", Json.str "sig123")])
    [Effect.signedTx demoSignedTransferTx, Effect.submittedTx demoSignedTransferTx]
    demo_transferAction_call

/-- C2: dispatching a name absent from the registry fails with the
`Unknown action: {name}` error naming the missing operation, and never
yields any JSON result (no default or fallback). -/
theorem execute_unknown_operation (r : ActionRegistry) (name : String) (ag : Agent)
    (ext : Ext) (input : Json) (h : r.get name = none) :
    r.execute name ag ext input = (.error ("Unknown action: " ++ name), []) ∧
    ∀ out effs, r.execute name ag ext input ≠ (.ok out, effs) := by
  have hx : r.execute name ag ext input = (.error ("Unknown action: " ++ name), []) := by
    simp only [ActionRegistry.execute, h]
  refine ⟨hx, fun out effs hcontra => ?_⟩
  rw [hx] at hcontra
  simp at hcontra

/-- C2, witness: an empty registry dispatching "FOO". -/
theorem execute_unknown_operation_witness :
    ActionRegistry.new.execute "FOO" demoAgent demoExt (Json.obj []) =
      (.error ("Unknown action: " ++ "FOO"), []) :=
  (execute_unknown_operation ActionRegistry.new "FOO" demoAgent demoExt (Json.obj []) rfl).1

/-- C3: when composing an SPL token transfer, if the destination's
associated token account exists at composition time the built instruction
sequence is exactly the one checked transfer instruction (no
create-account); if the account lookup fails, a create-account instruction
is placed immediately before the transfer, giving exactly two
instructions. -/
theorem transfer_conditional_account_creation (ag : Agent) (ext : Ext)
    (toAddr : Pubkey) (amount : ℚ) (mint_pubkey : Pubkey) (mintAcct : Account)
    (ms : MintState)
    (hMint : ag.client.getAccount mint_pubkey = .ok mintAcct)
    (hUnpack : ext.unpackMint mintAcct.data = .ok ms)
    (hAmt : f64ToU64 (amount * (10 : ℚ) ^ ms.decimals) ≠ 0) :
    (∀ destAcct,
      ag.client.getAccount (ext.getAssociatedTokenAddress toAddr mint_pubkey) =
        .ok destAcct →
      ag.buildTransferInstructions ext toAddr amount (some mint_pubkey) =
        .ok [Instruction.transferChecked mintAcct.owner
              (ext.getAssociatedTokenAddress ag.wallet.pubkey mint_pubkey) mint_pubkey
              (ext.getAssociatedTokenAddress toAddr mint_pubkey) ag.wallet.pubkey
              (f64ToU64 (amount * (10 : ℚ) ^ ms.decimals)) ms.decimals]) ∧
    (∀ e,
      ag.client.getAccount (ext.getAssociatedTokenAddress toAddr mint_pubkey) =
        .error e →
      ag.buildTransferInstructions ext toAddr amount (some mint_pubkey) =
        .ok [Instruction.createAssociatedTokenAccount ag.wallet.pubkey toAddr
              mint_pubkey mintAcct.owner,
             Instruction.transferChecked mintAcct.owner
              (ext.getAssociatedTokenAddress ag.wallet.pubkey mint_pubkey) mint_pubkey
              (ext.getAssociatedTokenAddress toAddr mint_pubkey) ag.wallet.pubkey
              (f64ToU64 (amount * (10 : ℚ) ^ ms.decimals)) ms.decimals]) :=
  ⟨fun destAcct hDest =>
      build_spl_ata_exists ag ext toAddr amount mint_pubkey mintAcct destAcct ms
        hMint hUnpack hAmt hDest,
   fun e hDest =>
      build_spl_ata_missing ag ext toAddr amount mint_pubkey mintAcct ms e
        hMint hUnpack hAmt hDest⟩

/-- C3, witness: with mint `3` (6 decimals, token program `7`) and amount 5,
an existing destination account yields the single checked-transfer
instruction, and a missing one yields create-account followed by the
transfer. -/
theorem transfer_conditional_account_creation_witness :
    demoAgentAtaExists.buildTransferInstructions demoExt 2 5 (some 3) =
      .ok [Instruction.transferChecked 7 113 3 123 1 5000000 6] ∧
    demoAgent.buildTransferInstructions demoExt 2 5 (some 3) =
      .ok [Instruction.createAssociatedTokenAccount 1 2 3 7,
           Instruction.transferChecked 7 113 3 123 1 5000000 6] := by
  have hAmt : f64ToU64 ((5 : ℚ) * (10 : ℚ) ^ (6 : ℕ)) ≠ 0 := by
    rw [demo_base_units_5_6dec]
    norm_num
  constructor
  · have h := (transfer_conditional_account_creation demoAgentAtaExists demoExt 2 5 3
      { owner := 7, data := [6] } { decimals := 6 } rfl rfl hAmt).1
      { owner := 7, data := [] } rfl
    rw [demo_base_units_5_6dec] at h
    exact h
  · have h := (transfer_conditional_account_creation demoAgent demoExt 2 5 3
      { owner := 7, data := [6] } { decimals := 6 } rfl rfl hAmt).2
      "AccountNotFound" rfl
    rw [demo_base_units_5_6dec] at h
    exact h

/-- C4: an amount that scales to zero base units (for SOL via
`LAMPORTS_PER_SOL`, for a token via the mint's declared decimals) is
rejected with the `Transfer amount is too small` failure before any
instruction is built, and the effect trace is empty: no transaction is
signed and nothing is submitted. -/
theorem transfer_zero_scaled_amount_rejected (ag : Agent) (ext : Ext)
    (toAddr : Pubkey) (amount : ℚ) :
    (f64ToU64 (amount * (LAMPORTS_PER_SOL : ℚ)) = 0 →
      ag.buildTransferInstructions ext toAddr amount none =
        .error "Transfer amount is too small" ∧
      ag.transfer ext toAddr amount none =
        (.error "Transfer amount is too small", [])) ∧
    (∀ mint_pubkey mintAcct ms,
      ag.client.getAccount mint_pubkey = .ok mintAcct →
      ext.unpackMint mintAcct.data = .ok ms →
      f64ToU64 (amount * (10 : ℚ) ^ ms.decimals) = 0 →
      ag.buildTransferInstructions ext toAddr amount (some mint_pubkey) =
        .error "Transfer amount is too small" ∧
      ag.transfer ext toAddr amount (some mint_pubkey) =
        (.error "Transfer amount is too small", [])) := by
  constructor
  · intro h
    have hb := build_sol_zero ag ext toAddr amount h
    exact ⟨hb, transfer_of_build_error ag ext toAddr amount none _ hb⟩
  · intro mint_pubkey mintAcct ms hMint hUnpack h
    have hb := build_spl_zero ag ext toAddr amount mint_pubkey mintAcct ms hMint hUnpack h
    exact ⟨hb, transfer_of_build_error ag ext toAddr amount (some mint_pubkey) _ hb⟩

/-- C4, witness: 0.1 nano-SOL scales to zero lamports and is rejected with
an empty effect trace, both for SOL and for the 6-decimal token `3`. -/
theorem transfer_zero_scaled_amount_rejected_witness :
    demoAgent.transfer demoExt 2 ((1 : ℚ)/10000000000) none =
      (.error "Transfer amount is too small", []) ∧
    demoAgent.transfer demoExt 2 ((1 : ℚ)/10000000000) (some 3) =
      (.error "Transfer amount is too small", []) := by
  constructor
  · exact ((transfer_zero_scaled_amount_rejected demoAgent demoExt 2
      ((1 : ℚ)/10000000000)).1 demo_lamports_tiny).2
  · exact ((transfer_zero_scaled_amount_rejected demoAgent demoExt 2
      ((1 : ℚ)/10000000000)).2 3 { owner := 7, data := [6] } { decimals := 6 }
      rfl rfl demo_base_units_tiny_6dec).2

/-- C5, counterexample: a draft whose compiled message reserves slot 1 for
the signing wallet (pubkey 5; the fee payer is pubkey 0).  The wallet's
`sign_transaction` pushes its signature onto the end of the empty signature
vector, so the signature lands at index 0 — the fee payer's slot — not at
the wallet's reserved slot 1, refuting slot-directed placement. -/
theorem sign_transaction_appends_instead_of_slotting :
    cexWallet.sign_transaction cexDraft =
      Except.ok { signatures := [{ signer := 5, signedMessage := cexMessage }],
                  message := cexMessage } ∧
    cexMessage.signerSlot 5 = some 1 ∧
    cexMessage.numRequiredSignatures = 2 :=
  ⟨rfl, rfl, rfl⟩

/-- C5, amended: `sign_transaction` appends exactly one valid signature
(this wallet's identity over the draft's serialized message) at the end of
the signature list, in arrival order rather than at the reserved slot; the
repository's flows still end correctly slotted because the fee-payer wallet
signs the empty draft first, and the deploy-collection flow then writes the
mint co-signature at index 1: for a message whose signer list is
`[wallet, mint]` the finalized transaction carries exactly the two
signatures, in slot order. -/
theorem sign_appends_and_deploy_flow_fills_slots (w : KeypairWallet)
    (mintKp : Keypair) (m : VersionedMessage) (tx : VersionedTransaction)
    (hsk : m.signerKeys = [w.pubkey, mintKp.pubkey]) :
    (w.sign_transaction tx =
      .ok { tx with signatures := tx.signatures ++ [w.keypair.signMessage tx.message] }) ∧
    ((w.keypair.signMessage tx.message).signer = w.pubkey ∧
     (w.keypair.signMessage tx.message).signedMessage = tx.message) ∧
    (deployCollectionFinalize w mintKp { signatures := [], message := m } =
      .ok { signatures := [w.keypair.signMessage m, mintKp.signMessage m],
            message := m }) ∧
    m.numRequiredSignatures = 2 ∧
    ([w.keypair.signMessage m, mintKp.signMessage m].map Signature.signer) =
      m.signerKeys := by
  refine ⟨rfl, ⟨rfl, rfl⟩, ?_, ?_, ?_⟩
  · unfold deployCollectionFinalize KeypairWallet.sign_transaction
    simp
  · simp [VersionedMessage.numRequiredSignatures, hsk]
  · simp [Keypair.signMessage, KeypairWallet.pubkey, hsk]

/-- C5, witness for the amended theorem: wallet pubkey 1 (fee payer), mint
keypair pubkey 2, on a deploy-style message whose signer list is `[1, 2]`. -/
theorem sign_appends_and_deploy_flow_fills_slots_witness :
    (demoWallet.sign_transaction cexDeployDraft =
      .ok { cexDeployDraft with
            signatures := cexDeployDraft.signatures ++
              [demoWallet.keypair.signMessage cexDeployDraft.message] }) ∧
    ((demoWallet.keypair.signMessage cexDeployDraft.message).signer =
        demoWallet.pubkey ∧
     (demoWallet.keypair.signMessage cexDeployDraft.message).signedMessage =
        cexDeployDraft.message) ∧
    (deployCollectionFinalize demoWallet cexMintKeypair
        { signatures := [], message := cexDeployMessage } =
      .ok { signatures := [demoWallet.keypair.signMessage cexDeployMessage,
                           cexMintKeypair.signMessage cexDeployMessage],
            message := cexDeployMessage }) ∧
    cexDeployMessage.numRequiredSignatures = 2 ∧
    ([demoWallet.keypair.signMessage cexDeployMessage,
      cexMintKeypair.signMessage cexDeployMessage].map Signature.signer) =
      cexDeployMessage.signerKeys :=
  sign_appends_and_deploy_flow_fills_slots demoWallet cexMintKeypair
    cexDeployMessage cexDeployDraft rfl

/-- C6: registration is last-wins and the exported catalogue is
duplicate-free.  For a registry built by any sequence of registrations:
the descriptor names are pairwise distinct; lookup returns exactly the
most recent registration under each name; and every exported descriptor is
the descriptor of the most recent registration under its name. -/
theorem registry_last_registration_wins (as' : List Action) :
    ((ActionRegistry.new.registerAll as').metadata.map (fun md => md.name)).Nodup ∧
    (∀ n : String, (ActionRegistry.new.registerAll as').get n =
      as'.reverse.find? (fun a => a.metadata.name == n)) ∧
    (∀ md ∈ (ActionRegistry.new.registerAll as').metadata,
      ∃ a, as'.reverse.find? (fun x => x.metadata.name == md.name) = some a ∧
        a.metadata = md) := by
  have hwf : (ActionRegistry.new.registerAll as').Wf := wf_registerAll as' _ wf_new
  have hget : ∀ n : String, (ActionRegistry.new.registerAll as').get n =
      as'.reverse.find? (fun a => a.metadata.name == n) := by
    intro n
    rw [get_registerAll]
    rcases hfind : as'.reverse.find? (fun a => a.metadata.name == n) with _ | b
    · rw [hfind]
      rfl
    · rw [hfind]
  refine ⟨?_, hget, ?_⟩
  · have hmapeq : (ActionRegistry.new.registerAll as').actions.map
        (fun p => p.2.metadata.name) =
        (ActionRegistry.new.registerAll as').actions.map Prod.fst := by
      apply List.map_congr_left
      intro p hp
      exact (hwf.2 p hp).symm
    have : ((ActionRegistry.new.registerAll as').metadata.map (fun md => md.name)) =
        (ActionRegistry.new.registerAll as').actions.map Prod.fst := by
      rw [ActionRegistry.metadata, List.map_map]
      exact hmapeq
    rw [this]
    exact hwf.1
  · intro md hmd
    rw [ActionRegistry.metadata] at hmd
    obtain ⟨p, hp, hpm⟩ := List.mem_map.mp hmd
    have hkey : p.1 = p.2.metadata.name := hwf.2 p hp
    have hlook : (ActionRegistry.new.registerAll as').get p.1 = some p.2 :=
      lookup_eq_some_of_mem_nodup _ hwf.1 p hp
    refine ⟨p.2, ?_, hpm⟩
    have hfound : as'.reverse.find? (fun a => a.metadata.name == p.1) = some p.2 := by
      rw [← hget p.1]
      exact hlook
    rw [← hpm, ← hkey]
    exact hfound

/-- C7: batch signing applies `sign_transaction` to each draft
independently and element-wise — `sign_all_transactions` coincides with
`mapM sign_transaction` — and it never fails, so no draft can prevent the
others from being signed. -/
theorem sign_all_elementwise (w : KeypairWallet) (txs : List VersionedTransaction) :
    w.sign_all_transactions txs = txs.mapM w.sign_transaction ∧
    (∀ tx, w.sign_transaction tx =
      .ok { tx with signatures := tx.signatures ++ [w.keypair.signMessage tx.message] }) ∧
    w.sign_all_transactions txs =
      .ok (txs.map fun tx =>
        { tx with signatures := tx.signatures ++ [w.keypair.signMessage tx.message] }) :=
  ⟨sign_all_eq_mapM w txs, fun _tx => rfl, rfl⟩

/-- The compiled-and-signed draft of the SOL branch of `Agent::transfer`:
one system transfer instruction, fee payer the wallet, one signature. -/
def solTransferDraft (ag : Agent) (to_pubkey : Pubkey) (amount : ℚ)
    (bh : Blockhash) : VersionedTransaction :=
  signedTransferTx ag
    [Instruction.systemTransfer ag.wallet.pubkey to_pubkey
      (f64ToU64 (amount * (LAMPORTS_PER_SOL : ℚ)))] bh

/-- C8: dispatching `TRANSFER` with a valid destination, an amount that
scales to a nonzero lamport count (such as 0.1 SOL), and no mint, builds a
transaction containing exactly one (system transfer) instruction, signed
with exactly one signature — the fee payer wallet's — and returns the
success result `{"signature": <confirmed tx id>}`. -/
theorem transfer_sol_dispatch_scenario (r : ActionRegistry) (ag : Agent) (ext : Ext)
    (toStr : String) (amount : ℚ) (to_pubkey : Pubkey) (bh : Blockhash) (s : String)
    (hreg : r.get "TRANSFER" = some transferAction)
    (hto : ext.parsePubkey toStr = .ok to_pubkey)
    (hlam : f64ToU64 (amount * (LAMPORTS_PER_SOL : ℚ)) ≠ 0)
    (hbh : ag.client.getLatestBlockhash = .ok bh)
    (hsend : ag.client.sendAndConfirmTransaction (solTransferDraft ag to_pubkey amount bh) =
      .ok s) :
    r.execute "TRANSFER" ag ext
        (Json.obj [("to", Json.str toStr), ("amount", Json.num amount)]) =
      (.ok (Json.obj [("signature", Json.str s)]),
       [Effect.signedTx (solTransferDraft ag to_pubkey amount bh),
        Effect.submittedTx (solTransferDraft ag to_pubkey amount bh)]) ∧
    (solTransferDraft ag to_pubkey amount bh).message.instructions =
      [Instruction.systemTransfer ag.wallet.pubkey to_pubkey
        (f64ToU64 (amount * (LAMPORTS_PER_SOL : ℚ)))] ∧
    (solTransferDraft ag to_pubkey amount bh).signatures =
      [{ signer := ag.wallet.pubkey,
         signedMessage := (solTransferDraft ag to_pubkey amount bh).message }] ∧
    (solTransferDraft ag to_pubkey amount bh).message.feePayer = ag.wallet.pubkey := by
  have hparse : parseTransferInput
      (Json.obj [("to", Json.str toStr), ("amount", Json.num amount)]) =
      .ok (toStr, amount, none) := rfl
  have hbuild := build_sol_ok ag ext to_pubkey amount hlam
  have htr := transfer_of_build_ok ag ext to_pubkey amount none
    [Instruction.systemTransfer ag.wallet.pubkey to_pubkey
      (f64ToU64 (amount * (LAMPORTS_PER_SOL : ℚ)))] bh s hbuild hbh hsend
  refine ⟨?_, rfl, rfl, rfl⟩
  simp only [ActionRegistry.execute, hreg, transferAction, hparse, hto, solTransferDraft]
  simp only [solTransferDraft] at htr
  rw [htr]

/-- C8, witness: the demo dispatch of `TRANSFER` for 0.1 SOL. -/
theorem transfer_sol_dispatch_scenario_witness :
    demoRegistry.execute "TRANSFER" demoAgent demoExt demoTransferInput =
      (.ok (Json.obj [("signature", Json.str "sig123")]),
       [Effect.signedTx (solTransferDraft demoAgent 2 ((1 : ℚ)/10) 11),
        Effect.submittedTx (solTransferDraft demoAgent 2 ((1 : ℚ)/10) 11)]) ∧
    (solTransferDraft demoAgent 2 ((1 : ℚ)/10) 11).message.instructions =
      [Instruction.systemTransfer 1 2 100000000] ∧
    (solTransferDraft demoAgent 2 ((1 : ℚ)/10) 11).signatures.length = 1 := by
  have h := transfer_sol_dispatch_scenario demoRegistry demoAgent demoExt "Dest111"
    ((1 : ℚ)/10) 2 11 "sig123" rfl rfl
    (by rw [demo_lamports_01]; norm_num) rfl rfl
  refine ⟨h.1, ?_, ?_⟩
  · have h2 := h.2.1
    rw [demo_lamports_01] at h2
    exact h2
  · rw [h.2.2.1]
    rfl

/-- C9: when the token-balance query for the owner's associated token
account fails (for example because the account does not exist),
`Agent::get_balance` swallows the failure and returns `Ok 0`. -/
theorem get_balance_token_query_failure_returns_zero (ag : Agent) (ext : Ext)
    (mint : Pubkey) (e : String)
    (h : ag.client.getTokenAccountBalance
        (ext.getAssociatedTokenAddress ag.wallet.pubkey mint) = .error e) :
    ag.get_balance ext (some mint) = .ok 0 := by
  unfold Agent.get_balance
  simp [h]

/-- C9, witness: the demo environment, whose token-balance query always
fails. -/
theorem get_balance_token_query_failure_returns_zero_witness :
    demoAgent.get_balance demoExt (some 3) = .ok 0 :=
  get_balance_token_query_failure_returns_zero demoAgent demoExt 3
    "could not find account" rfl

/-- C10: `GetTpsAction::call` never divides by zero: with no performance
samples it returns the error-status envelope, and with a first sample whose
period is zero it reports a TPS of 0 instead of dividing. -/
theorem get_tps_no_division_by_zero (ag : Agent) (ext : Ext) :
    (ag.client.getRecentPerformanceSamples 1 = .ok [] →
      (getTpsAction.call ag ext (Json.obj [])).1 =
        .ok (Json.obj
          [ ("status", Json.str "error"),
            ("message", Json.str "No performance samples available") ])) ∧
    (∀ sample rest, ag.client.getRecentPerformanceSamples 1 = .ok (sample :: rest) →
      sample.samplePeriodSecs = 0 →
      (getTpsAction.call ag ext (Json.obj [])).1 =
        .ok (Json.obj
          [ ("status", Json.str "success"),
            ("tps", Json.num 0),
            ("message", Json.str ("Current network TPS: " ++ ext.formatTps 0)) ])) := by
  constructor
  · intro h
    simp [getTpsAction, h]
  · intro sample rest h h0
    simp [getTpsAction, h, h0]

/-- C10, witness: the demo environments with no samples and with a
zero-period first sample. -/
theorem get_tps_no_division_by_zero_witness :
    (getTpsAction.call demoAgentNoSamples demoExt (Json.obj [])).1 =
      .ok (Json.obj
        [ ("status", Json.str "error"),
          ("message", Json.str "No performance samples available") ]) ∧
    (getTpsAction.call demoAgent demoExt (Json.obj [])).1 =
      .ok (Json.obj
        [ ("status", Json.str "success"),
          ("tps", Json.num 0),
          ("message", Json.str ("Current network TPS: " ++ demoExt.formatTps 0)) ]) :=
  ⟨(get_tps_no_division_by_zero demoAgentNoSamples demoExt).1 rfl,
   (get_tps_no_division_by_zero demoAgent demoExt).2
     { numTransactions := 5000, samplePeriodSecs := 0 } [] rfl rfl⟩

end SolActions
